import Mathlib

/-!
Shallow embedding of the cap-table engine in
`src/utils/financial-engine.ts` (class `FinancialEngine`).

Numbers are modelled as rationals (ℚ).  JavaScript `Math.round` is
`jround` below (round half toward +∞).  JavaScript division by zero
yields Infinity while ℚ division yields 0; no theorem in this file
evaluates a division at a zero denominator except where the source
itself is shown to misbehave, and those spots are flagged in comments.

Two JavaScript behaviours need explicit modelling:

* Truthiness: the source guards optional numeric fields with plain
  `if (x)`, so the value `0` behaves like an absent field.  `truthy`
  captures this.

* Aliasing: `processRound` begins with the shallow copy
  `let postRoundState = { ...preRoundState }`, which shares the nested
  `esop` object with the caller's state.  The later assignment
  `postRoundState.esop.percentage = ...` therefore writes through to the
  caller's (previous) state whenever `adjustESOPPool` did not allocate a
  fresh `esop` object (it allocates one exactly when an adjustment is
  requested with target percentage above the current one).  The model
  returns, in `RoundResult.preRoundState`, the contents of the caller's
  state as observable after the call, so this aliasing is explicit.

When a priced round carries neither valuation, the source dereferences
`terms.postMoneyValuation!` (undefined) and goes on to compute NaN-valued
metrics and state without throwing; ℚ has no NaN, so that outcome is the
dedicated constructor `RoundOutcome.nan` (and `CapTableOutcome.nanAt`).
-/

/-- JavaScript `Math.round`: rounds half toward positive infinity. -/
def jround (x : ℚ) : ℚ := (⌊x + 1/2⌋ : ℤ)

/-- JavaScript truthiness of an optional numeric field: absent and `0`
are both falsy (`if (x)` in the source). -/
def truthy : Option ℚ → Bool
  | none => false
  | some x => x != 0

/-- Founder input (`Founder` in `types/financial`): fields the engine reads. -/
structure FounderInput where
  id : String
  name : String
  initialEquity : ℚ
deriving DecidableEq, Repr

/-- Option-pool input (`ESOPPool`): the engine reads only `percentage`. -/
structure ESOPPoolInput where
  percentage : ℚ
deriving DecidableEq, Repr

/-- Per-founder entry of a `CapTableState`. -/
structure FounderState where
  id : String
  name : String
  shares : ℚ
  percentage : ℚ
deriving DecidableEq, Repr

/-- The `esop` entry of a `CapTableState`. -/
structure ESOPState where
  shares : ℚ
  percentage : ℚ
deriving DecidableEq, Repr

/-- Per-investor entry of a `CapTableState` (the fields the engine puts in
the investors list: id, name, shares, percentage, investmentAmount). -/
structure InvestorState where
  id : String
  name : String
  shares : ℚ
  percentage : ℚ
  investmentAmount : ℚ
deriving DecidableEq, Repr

/-- `CapTableState`: one ownership snapshot. -/
structure CapTableState where
  totalShares : ℚ
  founders : List FounderState
  esop : ESOPState
  investors : List InvestorState
deriving DecidableEq, Repr

/-- `pricedTerms` of a priced round; either valuation may be absent. -/
structure PricedTerms where
  preMoneyValuation : Option ℚ
  postMoneyValuation : Option ℚ
deriving DecidableEq, Repr

/-- `safeTerms` of a SAFE round. -/
structure SafeTerms where
  valuationCap : Option ℚ
  discount : Option ℚ
deriving DecidableEq, Repr

/-- `esopAdjustment` directive on a round. -/
structure ESOPAdjustment where
  newPoolPercentage : ℚ
  isPreMoney : Bool
deriving DecidableEq, Repr

/-- Round type tag (`'PRICED' | 'SAFE'`). -/
inductive RoundType
  | PRICED
  | SAFE
deriving DecidableEq, Repr

/-- `FundingRound`: fields the engine reads. -/
structure FundingRound where
  id : String
  name : String
  type : RoundType
  capitalRaised : ℚ
  pricedTerms : Option PricedTerms
  safeTerms : Option SafeTerms
  esopAdjustment : Option ESOPAdjustment
deriving DecidableEq, Repr

/-- `RoundCalculationResult`: `preRoundState` holds the contents of the
caller's state as observable after the call (see aliasing note above);
`valuation: { preMoney, postMoney }` is flattened into two fields. -/
structure RoundResult where
  preRoundState : CapTableState
  postRoundState : CapTableState
  newShares : ℚ
  sharePrice : ℚ
  preMoney : ℚ
  postMoney : ℚ
deriving DecidableEq, Repr

/-- Outcome of `processRound`: a thrown error, the NaN-contaminated
non-throwing path (priced round with both valuations absent), or a
result. -/
inductive RoundOutcome
  | error (msg : String)
  | nan
  | ok (r : RoundResult)
deriving DecidableEq, Repr

/-- Outcome of `calculateCapTable`: a thrown error; or the state list when
some round took the NaN path (the states listed are those preceding the
NaN-valued ones, which ℚ cannot represent); or the full state list. -/
inductive CapTableOutcome
  | error (msg : String)
  | nanAt (states : List CapTableState)
  | ok (states : List CapTableState)
deriving DecidableEq, Repr

/-- `Scenario`: the inputs `calculateCapTable` reads. -/
structure Scenario where
  founders : List FounderInput
  esopPools : List ESOPPoolInput
  rounds : List FundingRound
deriving DecidableEq, Repr

/-- `FinancialEngine.INITIAL_SHARES = 10_000_000`. -/
def INITIAL_SHARES : ℚ := 10000000

/-- `FinancialEngine.createInitialState`. -/
def createInitialState (founders : List FounderInput) (esopPools : List ESOPPoolInput) :
    Except String CapTableState :=
  let totalEquityPercent :=
    (founders.map FounderInput.initialEquity).sum
      + (esopPools.map ESOPPoolInput.percentage).sum
  if 1/100 < |totalEquityPercent - 100| then
    Except.error "Initial equity must sum to 100%"
  else
    let totalShares := INITIAL_SHARES
    let esopShares :=
      (esopPools.map fun pool => jround (pool.percentage / 100 * totalShares)).sum
    Except.ok
      { totalShares := totalShares
        founders := founders.map fun founder =>
          { id := founder.id
            name := founder.name
            shares := jround (founder.initialEquity / 100 * totalShares)
            percentage := founder.initialEquity }
        esop := { shares := esopShares
                  percentage := (esopPools.map ESOPPoolInput.percentage).sum }
        investors := [] }

/-- `FinancialEngine.adjustESOPPool` (pure part: the returned state).
In the pre-money branch the source reassigns `state.founders` on the
shallow copy it received; since it then returns a spread of that copy,
the returned state is as below and the caller's own state is unaffected
(the founder objects themselves are rebuilt by `map`). -/
def adjustESOPPool (state : CapTableState) (targetPercent : ℚ) (isPreMoney : Bool)
    (newSharesFromRound : ℚ) : CapTableState :=
  let currentESOPPercent := state.esop.shares / state.totalShares * 100
  if targetPercent ≤ currentESOPPercent then
    state
  else
    let additionalESOPPercent := targetPercent - currentESOPPercent
    if isPreMoney then
      let additionalESOPShares := additionalESOPPercent / 100 * state.totalShares
      let dilutionFactor := state.totalShares / (state.totalShares + additionalESOPShares)
      { state with
        founders := state.founders.map fun founder =>
          { founder with shares := jround (founder.shares * dilutionFactor) }
        esop := { shares := state.esop.shares + additionalESOPShares
                  percentage := targetPercent } }
    else
      let futureShares := state.totalShares + newSharesFromRound
      let additionalESOPShares := targetPercent / 100 * futureShares - state.esop.shares
      { state with
        esop := { shares := state.esop.shares + additionalESOPShares
                  percentage := targetPercent } }

/-- Tail of `FinancialEngine.processRound` after the pricing branch:
optional ESOP adjustment, investor admission, percentage refresh, and
the aliased write of the pool percentage into the caller's state. -/
def finishRound (preRoundState : CapTableState) (round : FundingRound)
    (sharePrice preMoney postMoney newShares : ℚ) : RoundResult :=
  let adjusted :=
    match round.esopAdjustment with
    | none => preRoundState
    | some adj => adjustESOPPool preRoundState adj.newPoolPercentage adj.isPreMoney newShares
  let newTotalShares := adjusted.totalShares + newShares
  let investorEquityPercent := newShares / newTotalShares * 100
  let newEsopPercentage := adjusted.esop.shares / newTotalShares * 100
  let post : CapTableState :=
    { totalShares := newTotalShares
      founders := adjusted.founders.map fun founder =>
        { founder with percentage := founder.shares / newTotalShares * 100 }
      esop := { shares := adjusted.esop.shares, percentage := newEsopPercentage }
      investors :=
        adjusted.investors.map (fun investor =>
          { investor with percentage := investor.shares / newTotalShares * 100 })
        ++ [ { id := "investor-" ++ round.id
               name := round.name ++ " Investor"
               shares := newShares
               percentage := investorEquityPercent
               investmentAmount := round.capitalRaised } ] }
  let preAfter : CapTableState :=
    match round.esopAdjustment with
    | none =>
      { preRoundState with
        esop := { shares := preRoundState.esop.shares, percentage := newEsopPercentage } }
    | some adj =>
      if preRoundState.esop.shares / preRoundState.totalShares * 100 < adj.newPoolPercentage then
        preRoundState
      else
        { preRoundState with
          esop := { shares := preRoundState.esop.shares, percentage := newEsopPercentage } }
  { preRoundState := preAfter
    postRoundState := post
    newShares := newShares
    sharePrice := sharePrice
    preMoney := preMoney
    postMoney := postMoney }

/-- `FinancialEngine.processRound`.  The source's non-null assertions
`round.pricedTerms!` / `round.safeTerms!` are modelled by defaulting to
an all-absent terms object (callers in the repository always supply the
matching terms object for the round's type). -/
def processRound (preRoundState : CapTableState) (round : FundingRound) : RoundOutcome :=
  let totalShares := preRoundState.totalShares
  match round.type with
  | RoundType.PRICED =>
    let terms := round.pricedTerms.getD { preMoneyValuation := none, postMoneyValuation := none }
    if truthy terms.preMoneyValuation then
      let preMoney := terms.preMoneyValuation.getD 0
      let sharePrice := preMoney / totalShares
      let newShares := round.capitalRaised / sharePrice
      RoundOutcome.ok
        (finishRound preRoundState round sharePrice preMoney (preMoney + round.capitalRaised)
          newShares)
    else
      match terms.postMoneyValuation with
      | none => RoundOutcome.nan
      | some postMoney =>
        let preMoney := postMoney - round.capitalRaised
        let sharePrice := preMoney / totalShares
        let newShares := round.capitalRaised / sharePrice
        RoundOutcome.ok
          (finishRound preRoundState round sharePrice preMoney postMoney newShares)
  | RoundType.SAFE =>
    let safeTerms := round.safeTerms.getD { valuationCap := none, discount := none }
    if truthy safeTerms.valuationCap then
      let capPrice := safeTerms.valuationCap.getD 0 / totalShares
      let sharePrice :=
        if truthy safeTerms.discount then
          min capPrice (capPrice * (1 - safeTerms.discount.getD 0 / 100))
        else
          capPrice
      let newShares := round.capitalRaised / sharePrice
      let preMoney := sharePrice * totalShares
      RoundOutcome.ok
        (finishRound preRoundState round sharePrice preMoney (preMoney + round.capitalRaised)
          newShares)
    else
      RoundOutcome.error "SAFE without cap requires conversion round details"

/-- Iteration of `calculateCapTable` over the round list.  Each entry of
the returned list is the corresponding snapshot as observable when
`calculateCapTable` returns, i.e. after any aliased pool-percentage
write by the following round. -/
def runRounds (current : CapTableState) : List FundingRound → CapTableOutcome
  | [] => CapTableOutcome.ok [current]
  | round :: rest =>
    match processRound current round with
    | RoundOutcome.error msg => CapTableOutcome.error msg
    | RoundOutcome.nan => CapTableOutcome.nanAt [current]
    | RoundOutcome.ok result =>
      match runRounds result.postRoundState rest with
      | CapTableOutcome.error msg => CapTableOutcome.error msg
      | CapTableOutcome.nanAt states => CapTableOutcome.nanAt (result.preRoundState :: states)
      | CapTableOutcome.ok states => CapTableOutcome.ok (result.preRoundState :: states)

/-- `FinancialEngine.calculateCapTable`. -/
def calculateCapTable (scenario : Scenario) : CapTableOutcome :=
  match createInitialState scenario.founders scenario.esopPools with
  | Except.error msg => CapTableOutcome.error msg
  | Except.ok initial => runRounds initial scenario.rounds

/-- Per-founder entry of an `ExitSimulation`. -/
structure FounderReturn where
  founderId : String
  name : String
  finalEquity : ℚ
  cashReturn : ℚ
deriving DecidableEq, Repr

/-- Per-investor entry of an `ExitSimulation`. -/
structure InvestorReturn where
  investorId : String
  name : String
  finalEquity : ℚ
  cashReturn : ℚ
  multiple : ℚ
deriving DecidableEq, Repr

/-- `ExitSimulation`. -/
structure ExitSimulation where
  exitValuation : ℚ
  founderReturns : List FounderReturn
  esopValue : ℚ
  investorReturns : List InvestorReturn
deriving DecidableEq, Repr

/-- `FinancialEngine.simulateExit`. -/
def simulateExit (finalState : CapTableState) (exitValuation : ℚ) : ExitSimulation :=
  { exitValuation := exitValuation
    founderReturns := finalState.founders.map fun founder =>
      { founderId := founder.id
        name := founder.name
        finalEquity := founder.percentage
        cashReturn := founder.percentage / 100 * exitValuation }
    esopValue := finalState.esop.percentage / 100 * exitValuation
    investorReturns := finalState.investors.map fun investor =>
      { investorId := investor.id
        name := investor.name
        finalEquity := investor.percentage
        cashReturn := investor.percentage / 100 * exitValuation
        multiple := investor.percentage / 100 * exitValuation / investor.investmentAmount } }

/-- `FinancialEngine.validateScenario` over a partial scenario: `founders`
and `esopPools` may each be absent.  Note that in the source an empty
founders array is truthy, so the equity check runs for it as well. -/
def validateScenario (founders : Option (List FounderInput))
    (esopPools : Option (List ESOPPoolInput)) : List String :=
  let founderErrors :=
    match founders with
    | none => ["At least one founder is required"]
    | some [] => ["At least one founder is required"]
    | some (_ :: _) => []
  match founders with
  | none => founderErrors
  | some fs =>
    let totalEquity :=
      (fs.map FounderInput.initialEquity).sum
        + ((esopPools.getD []).map ESOPPoolInput.percentage).sum
    if 1/100 < |totalEquity - 100| then
      founderErrors ++ ["Total equity must sum to 100%"]
    else
      founderErrors

/-- Sum of all share counts held in a state (founders + pool + investors). -/
def shareSum (s : CapTableState) : ℚ :=
  (s.founders.map FounderState.shares).sum + s.esop.shares
    + (s.investors.map InvestorState.shares).sum

/-- Sum of all percentages in a state (founders + pool + investors). -/
def pctSum (s : CapTableState) : ℚ :=
  (s.founders.map FounderState.percentage).sum + s.esop.percentage
    + (s.investors.map InvestorState.percentage).sum

/-- Sum of all cash proceeds of an exit simulation (founder and investor
cash returns plus the pool's cash value). -/
def returnSum (sim : ExitSimulation) : ℚ :=
  (sim.founderReturns.map FounderReturn.cashReturn).sum
    + (sim.investorReturns.map InvestorReturn.cashReturn).sum
    + sim.esopValue

/-- The i-th snapshot returned by `calculateCapTable`, when it returns one. -/
def stateAt (scenario : Scenario) (i : ℕ) : Option CapTableState :=
  match calculateCapTable scenario with
  | CapTableOutcome.ok states => states.get? i
  | _ => none

/-- The pool percentage of the initial state as `createInitialState` built
it (before any round processing could overwrite it through aliasing). -/
def initialEsopPct (scenario : Scenario) : Option ℚ :=
  match createInitialState scenario.founders scenario.esopPools with
  | Except.ok s => some s.esop.percentage
  | Except.error _ => none

/-- Round metrics (sharePrice, newShares, preMoney, postMoney) of a
successful `processRound` outcome. -/
def roundMetrics : RoundOutcome → Option (ℚ × ℚ × ℚ × ℚ)
  | RoundOutcome.ok r => some (r.sharePrice, r.newShares, r.preMoney, r.postMoney)
  | _ => none

/-- Share price of a successful `processRound` outcome. -/
def sharePriceOf : RoundOutcome → Option ℚ
  | RoundOutcome.ok r => some r.sharePrice
  | _ => none

/-- New shares issued by a successful `processRound` outcome. -/
def newSharesOf : RoundOutcome → Option ℚ
  | RoundOutcome.ok r => some r.newShares
  | _ => none

/-- The pool percentage of the caller's (previous) state as observable
after `processRound` returns. -/
def mutatedPrePct : RoundOutcome → Option ℚ
  | RoundOutcome.ok r => some r.preRoundState.esop.percentage
  | _ => none

/-- Whether `calculateCapTable` took the non-throwing NaN path. -/
def capIsNan : CapTableOutcome → Bool
  | CapTableOutcome.nanAt _ => true
  | _ => false

/-- Whether `calculateCapTable` threw an error. -/
def capIsError : CapTableOutcome → Bool
  | CapTableOutcome.error _ => true
  | _ => false

/-- Founder percentages of a state, in list order. -/
def founderPercentages (s : CapTableState) : List ℚ :=
  s.founders.map FounderState.percentage

/-- Investor percentages of a state, in list order. -/
def investorPercentages (s : CapTableState) : List ℚ :=
  s.investors.map InvestorState.percentage

/-- Priced round raising 1,000,000 at 4,000,000 pre-money. -/
def roundPre4M : FundingRound :=
  { id := "r1", name := "Seed", type := RoundType.PRICED
    capitalRaised := 1000000
    pricedTerms := some { preMoneyValuation := some 4000000, postMoneyValuation := none }
    safeTerms := none
    esopAdjustment := none }

/-- Priced round raising 2,000,000 at 8,000,000 pre-money with a
pre-money pool top-up to 15%. -/
def roundTopUp : FundingRound :=
  { id := "r1", name := "Series A", type := RoundType.PRICED
    capitalRaised := 2000000
    pricedTerms := some { preMoneyValuation := some 8000000, postMoneyValuation := none }
    safeTerms := none
    esopAdjustment := some { newPoolPercentage := 15, isPreMoney := true } }

/-- Priced round raising 2,000,000 at 8,000,000 pre-money, no pool
adjustment. -/
def roundPlain2M : FundingRound :=
  { id := "r1", name := "Series A", type := RoundType.PRICED
    capitalRaised := 2000000
    pricedTerms := some { preMoneyValuation := some 8000000, postMoneyValuation := none }
    safeTerms := none
    esopAdjustment := none }

/-- Priced round carrying neither a pre-money nor a post-money valuation. -/
def roundNoVal : FundingRound :=
  { id := "r1", name := "Bad Round", type := RoundType.PRICED
    capitalRaised := 1000000
    pricedTerms := some { preMoneyValuation := none, postMoneyValuation := none }
    safeTerms := none
    esopAdjustment := none }

/-- SAFE raising 250,000 at a 10,000,000 cap with a 20% discount. -/
def roundSafe : FundingRound :=
  { id := "r1", name := "SAFE Round", type := RoundType.SAFE
    capitalRaised := 250000
    pricedTerms := none
    safeTerms := some { valuationCap := some 10000000, discount := some 20 }
    esopAdjustment := none }

/-- SAFE raising 500,000 with no valuation cap but a 20% discount. -/
def roundSafeNoCap : FundingRound :=
  { id := "r1", name := "Capless SAFE", type := RoundType.SAFE
    capitalRaised := 500000
    pricedTerms := none
    safeTerms := some { valuationCap := none, discount := some 20 }
    esopAdjustment := none }

/-- Priced round whose pre-money valuation is set to 0 and whose
post-money valuation is 5,000,000. -/
def roundPreZero : FundingRound :=
  { id := "r1", name := "Zero Pre", type := RoundType.PRICED
    capitalRaised := 1000000
    pricedTerms := some { preMoneyValuation := some 0, postMoneyValuation := some 5000000 }
    safeTerms := none
    esopAdjustment := none }

/-- SAFE raising 500,000 whose valuation cap is set to 0. -/
def roundSafeCapZero : FundingRound :=
  { id := "r1", name := "Zero Cap SAFE", type := RoundType.SAFE
    capitalRaised := 500000
    pricedTerms := none
    safeTerms := some { valuationCap := some 0, discount := none }
    esopAdjustment := none }

/-- The initial state of a single founder holding all 10,000,000 shares. -/
def stateSingle : CapTableState :=
  { totalShares := 10000000
    founders := [{ id := "f1", name := "Founder 1", shares := 10000000, percentage := 100 }]
    esop := { shares := 0, percentage := 0 }
    investors := [] }

/-- Initial state of a 90% founder plus a 10% founding pool. -/
def stateNinetyTen : CapTableState :=
  { totalShares := 10000000
    founders := [{ id := "f1", name := "Founder 1", shares := 9000000, percentage := 90 }]
    esop := { shares := 1000000, percentage := 10 }
    investors := [] }

/-- Initial state of founders at 90% and 10% with no pool. -/
def stateTopUp0 : CapTableState :=
  { totalShares := 10000000
    founders := [{ id := "f1", name := "Alice", shares := 9000000, percentage := 90 },
                 { id := "f2", name := "Bob", shares := 1000000, percentage := 10 }]
    esop := { shares := 0, percentage := 0 }
    investors := [] }

/-- Founders 90/10, priced round of 2,000,000 at 8,000,000 pre-money with
a pre-money pool top-up to 15% (the scenario of the repository's own
"priced round with pre-money ESOP top-up" test). -/
def scenarioTopUp : Scenario :=
  { founders := [{ id := "f1", name := "Alice", initialEquity := 90 },
                 { id := "f2", name := "Bob", initialEquity := 10 }]
    esopPools := []
    rounds := [roundTopUp] }

/-- Founder at 90% plus a 10% pool at founding, one priced round of
2,000,000 at 8,000,000 pre-money, no pool adjustment. -/
def scenarioEsop : Scenario :=
  { founders := [{ id := "f1", name := "Founder 1", initialEquity := 90 }]
    esopPools := [{ percentage := 10 }]
    rounds := [roundPlain2M] }

/-- Single founder, one priced round carrying neither valuation. -/
def scenarioNoVal : Scenario :=
  { founders := [{ id := "f1", name := "Founder 1", initialEquity := 100 }]
    esopPools := []
    rounds := [roundNoVal] }

/-- Single founder at 100%, one priced round raising 1,000,000 at
4,000,000 pre-money. -/
def scenarioSingle : Scenario :=
  { founders := [{ id := "f1", name := "Founder 1", initialEquity := 100 }]
    esopPools := []
    rounds := [roundPre4M] }

/-- Single founder at 100%, convertible raising 250,000 at a 10,000,000
cap with a 20% discount. -/
def scenarioSafe : Scenario :=
  { founders := [{ id := "f1", name := "Founder 1", initialEquity := 100 }]
    esopPools := []
    rounds := [roundSafe] }

/-- Expected post-round state of `scenarioSingle`. -/
def postSingle : CapTableState :=
  { totalShares := 12500000
    founders := [{ id := "f1", name := "Founder 1", shares := 10000000, percentage := 80 }]
    esop := { shares := 0, percentage := 0 }
    investors := [{ id := "investor-r1", name := "Seed Investor", shares := 2500000,
                    percentage := 20, investmentAmount := 1000000 }] }

/-- Expected post-round state of `scenarioSafe`. -/
def postSafe : CapTableState :=
  { totalShares := 10312500
    founders := [{ id := "f1", name := "Founder 1", shares := 10000000, percentage := 3200/33 }]
    esop := { shares := 0, percentage := 0 }
    investors := [{ id := "investor-r1", name := "SAFE Round Investor", shares := 312500,
                    percentage := 100/33, investmentAmount := 250000 }] }

/-- Expected post-round state of `scenarioTopUp`: the pre-money top-up
added 1,500,000 pool shares and rounded the founders down to
7,826,087 and 869,565 shares, but `totalShares` was never increased by
the top-up, so the share sum exceeds it and the percentages (computed
against `totalShares` + round shares) sum to more than 100. -/
def postTopUp : CapTableState :=
  { totalShares := 12500000
    founders := [{ id := "f1", name := "Alice", shares := 7826087, percentage := 7826087/125000 },
                 { id := "f2", name := "Bob", shares := 869565, percentage := 173913/25000 }]
    esop := { shares := 1500000, percentage := 12 }
    investors := [{ id := "investor-r1", name := "Series A Investor", shares := 2500000,
                    percentage := 20, investmentAmount := 2000000 }] }

/-- Expected post-round state of `scenarioEsop`. -/
def postEsop : CapTableState :=
  { totalShares := 12500000
    founders := [{ id := "f1", name := "Founder 1", shares := 9000000, percentage := 72 }]
    esop := { shares := 1000000, percentage := 8 }
    investors := [{ id := "investor-r1", name := "Series A Investor", shares := 2500000,
                    percentage := 20, investmentAmount := 2000000 }] }

/-- The initial snapshot of `scenarioEsop` as observable after the round
was processed: its pool percentage has been overwritten with the
post-round value 8 through the aliased esop object. -/
def stateNinetyTenMutated : CapTableState :=
  { totalShares := 10000000
    founders := [{ id := "f1", name := "Founder 1", shares := 9000000, percentage := 90 }]
    esop := { shares := 1000000, percentage := 8 }
    investors := [] }

/-- Evaluation rule for `jround` at a known integer output. -/
theorem jround_eq (x : ℚ) (n : ℤ) (h1 : (n : ℚ) ≤ x + 1/2) (h2 : x + 1/2 < (n : ℚ) + 1) :
    jround x = (n : ℚ) := by
  have h : ⌊x + 1/2⌋ = n := by
    rw [Int.floor_eq_iff]
    exact ⟨h1, h2⟩
  unfold jround
  rw [h]

theorem jround_10000000 : jround (10000000 : ℚ) = 10000000 := by
  have h := jround_eq 10000000 10000000 (by norm_num) (by norm_num)
  norm_num at h
  exact h

theorem jround_9000000 : jround (9000000 : ℚ) = 9000000 := by
  have h := jround_eq 9000000 9000000 (by norm_num) (by norm_num)
  norm_num at h
  exact h

theorem jround_1000000 : jround (1000000 : ℚ) = 1000000 := by
  have h := jround_eq 1000000 1000000 (by norm_num) (by norm_num)
  norm_num at h
  exact h

/-- Rounded share count of the 90% founder after the 15% pre-money
top-up: 9,000,000 × 20/23 rounds to 7,826,087. -/
theorem jround_topup_ninety : jround ((180000000 : ℚ)/23) = 7826087 := by
  have h := jround_eq (180000000/23) 7826087 (by norm_num) (by norm_num)
  norm_num at h
  exact h

/-- Rounded share count of the 10% founder after the 15% pre-money
top-up: 1,000,000 × 20/23 rounds to 869,565. -/
theorem jround_topup_ten : jround ((20000000 : ℚ)/23) = 869565 := by
  have h := jround_eq (20000000/23) 869565 (by norm_num) (by norm_num)
  norm_num at h
  exact h

theorem initSingle_eval :
    createInitialState scenarioSingle.founders scenarioSingle.esopPools
      = Except.ok stateSingle := by
  simp only [createInitialState, scenarioSingle, stateSingle, INITIAL_SHARES]
  rw [if_neg (by norm_num)]
  norm_num [jround_10000000]

theorem initSafe_eval :
    createInitialState scenarioSafe.founders scenarioSafe.esopPools
      = Except.ok stateSingle := by
  simp only [createInitialState, scenarioSafe, stateSingle, INITIAL_SHARES]
  rw [if_neg (by norm_num)]
  norm_num [jround_10000000]

theorem initNoVal_eval :
    createInitialState scenarioNoVal.founders scenarioNoVal.esopPools
      = Except.ok stateSingle := by
  simp only [createInitialState, scenarioNoVal, stateSingle, INITIAL_SHARES]
  rw [if_neg (by norm_num)]
  norm_num [jround_10000000]

theorem initNinetyTen_eval :
    createInitialState scenarioEsop.founders scenarioEsop.esopPools
      = Except.ok stateNinetyTen := by
  simp only [createInitialState, scenarioEsop, stateNinetyTen, INITIAL_SHARES]
  rw [if_neg (by norm_num)]
  norm_num [jround_9000000, jround_1000000]

theorem initTopUp_eval :
    createInitialState scenarioTopUp.founders scenarioTopUp.esopPools
      = Except.ok stateTopUp0 := by
  simp only [createInitialState, scenarioTopUp, stateTopUp0, INITIAL_SHARES]
  rw [if_neg (by norm_num)]
  norm_num [jround_9000000, jround_1000000]

theorem procSingle_eval :
    processRound stateSingle roundPre4M
      = RoundOutcome.ok
          { preRoundState := stateSingle
            postRoundState := postSingle
            newShares := 2500000
            sharePrice := 2/5
            preMoney := 4000000
            postMoney := 5000000 } := by
  simp only [processRound, roundPre4M, stateSingle, finishRound, postSingle, truthy,
    Option.getD]
  norm_num
  exact ⟨rfl, rfl⟩

theorem procSafe_eval :
    processRound stateSingle roundSafe
      = RoundOutcome.ok
          { preRoundState := stateSingle
            postRoundState := postSafe
            newShares := 312500
            sharePrice := 4/5
            preMoney := 8000000
            postMoney := 8250000 } := by
  simp only [processRound, roundSafe, stateSingle, finishRound, postSafe, truthy,
    Option.getD]
  norm_num
  exact ⟨rfl, rfl⟩

theorem procNoVal_eval :
    processRound stateSingle roundNoVal = RoundOutcome.nan := by
  simp only [processRound, roundNoVal, stateSingle, truthy, Option.getD]
  norm_num

theorem procTopUp_eval :
    processRound stateTopUp0 roundTopUp
      = RoundOutcome.ok
          { preRoundState := stateTopUp0
            postRoundState := postTopUp
            newShares := 2500000
            sharePrice := 4/5
            preMoney := 8000000
            postMoney := 10000000 } := by
  simp only [processRound, roundTopUp, stateTopUp0, finishRound, adjustESOPPool,
    postTopUp, truthy, Option.getD]
  norm_num [jround_topup_ninety, jround_topup_ten]
  exact ⟨rfl, rfl⟩

theorem procEsop_eval :
    processRound stateNinetyTen roundPlain2M
      = RoundOutcome.ok
          { preRoundState := stateNinetyTenMutated
            postRoundState := postEsop
            newShares := 2500000
            sharePrice := 4/5
            preMoney := 8000000
            postMoney := 10000000 } := by
  simp only [processRound, roundPlain2M, stateNinetyTen, finishRound, postEsop,
    stateNinetyTenMutated, truthy, Option.getD]
  norm_num
  exact ⟨rfl, rfl⟩

theorem calculateCapTable_ok (scenario : Scenario) (s : CapTableState)
    (h : createInitialState scenario.founders scenario.esopPools = Except.ok s) :
    calculateCapTable scenario = runRounds s scenario.rounds := by
  unfold calculateCapTable
  rw [h]

theorem runRounds_nil (current : CapTableState) :
    runRounds current [] = CapTableOutcome.ok [current] := rfl

theorem runRounds_cons_ok (current : CapTableState) (round : FundingRound)
    (rest : List FundingRound) (res : RoundResult) (states : List CapTableState)
    (h : processRound current round = RoundOutcome.ok res)
    (h2 : runRounds res.postRoundState rest = CapTableOutcome.ok states) :
    runRounds current (round :: rest) = CapTableOutcome.ok (res.preRoundState :: states) := by
  simp only [runRounds, h, h2]

theorem runRounds_cons_nan (current : CapTableState) (round : FundingRound)
    (rest : List FundingRound) (h : processRound current round = RoundOutcome.nan) :
    runRounds current (round :: rest) = CapTableOutcome.nanAt [current] := by
  simp only [runRounds, h]

theorem stateAt_of_ok (scenario : Scenario) (states : List CapTableState)
    (h : calculateCapTable scenario = CapTableOutcome.ok states) (i : ℕ) :
    stateAt scenario i = states.get? i := by
  unfold stateAt
  rw [h]

theorem calcSingle_eval :
    calculateCapTable scenarioSingle = CapTableOutcome.ok [stateSingle, postSingle] := by
  rw [calculateCapTable_ok scenarioSingle stateSingle initSingle_eval]
  show runRounds stateSingle [roundPre4M] = _
  rw [runRounds_cons_ok stateSingle roundPre4M [] _ _ procSingle_eval (runRounds_nil _)]

theorem calcSafe_eval :
    calculateCapTable scenarioSafe = CapTableOutcome.ok [stateSingle, postSafe] := by
  rw [calculateCapTable_ok scenarioSafe stateSingle initSafe_eval]
  show runRounds stateSingle [roundSafe] = _
  rw [runRounds_cons_ok stateSingle roundSafe [] _ _ procSafe_eval (runRounds_nil _)]

theorem calcTopUp_eval :
    calculateCapTable scenarioTopUp = CapTableOutcome.ok [stateTopUp0, postTopUp] := by
  rw [calculateCapTable_ok scenarioTopUp stateTopUp0 initTopUp_eval]
  show runRounds stateTopUp0 [roundTopUp] = _
  rw [runRounds_cons_ok stateTopUp0 roundTopUp [] _ _ procTopUp_eval (runRounds_nil _)]

theorem calcEsop_eval :
    calculateCapTable scenarioEsop
      = CapTableOutcome.ok [stateNinetyTenMutated, postEsop] := by
  rw [calculateCapTable_ok scenarioEsop stateNinetyTen initNinetyTen_eval]
  show runRounds stateNinetyTen [roundPlain2M] = _
  rw [runRounds_cons_ok stateNinetyTen roundPlain2M [] _ _ procEsop_eval (runRounds_nil _)]

theorem calcNoVal_eval :
    calculateCapTable scenarioNoVal = CapTableOutcome.nanAt [stateSingle] := by
  rw [calculateCapTable_ok scenarioNoVal stateSingle initNoVal_eval]
  show runRounds stateSingle [roundNoVal] = _
  rw [runRounds_cons_nan stateSingle roundNoVal [] procNoVal_eval]

/-- Linearity of a mapped sum: pulling the common factor out. -/
theorem sum_map_div_mul {α : Type} (l : List α) (g : α → ℚ) (V : ℚ) :
    (l.map fun a => g a / 100 * V).sum = (l.map g).sum / 100 * V := by
  induction l with
  | nil => simp
  | cons a t ih =>
    simp only [List.map_cons, List.sum_cons, ih]
    ring

/-- C1: the claim — for every scenario accepted by `calculateCapTable`,
every state in the returned sequence has share counts summing to its
`totalShares` and percentages summing to 100 within 0.01 — fails on the
code.  The top-up scenario (founders 90/10, priced round of 2,000,000 at
8,000,000 pre-money, pre-money pool top-up to 15%) is accepted, yet its
post-round state has share sum 12,695,652 against a recorded total of
12,500,000, and its percentages sum to 3173913/31250 ≈ 101.57, more than
0.01 away from 100: the pre-money top-up adds pool shares without ever
increasing `totalShares`. -/
theorem c1_invariants_fail_on_premoney_topup :
    capIsError (calculateCapTable scenarioTopUp) = false ∧
    (stateAt scenarioTopUp 1).map shareSum = some 12695652 ∧
    (stateAt scenarioTopUp 1).map CapTableState.totalShares = some 12500000 ∧
    (stateAt scenarioTopUp 1).map pctSum = some (3173913/31250) ∧
    (12695652 : ℚ) ≠ 12500000 ∧ 1/100 < |(3173913 : ℚ)/31250 - 100| := by
  have habs : |(3173913 : ℚ)/31250 - 100| = 48913/31250 := by
    rw [abs_of_pos (show (0 : ℚ) < 3173913/31250 - 100 by norm_num)]
    norm_num
  refine ⟨?_, ?_, ?_, ?_, by norm_num, by rw [habs]; norm_num⟩
  · rw [calcTopUp_eval]
    rfl
  · rw [stateAt_of_ok _ _ calcTopUp_eval 1]
    norm_num [List.get?, shareSum, postTopUp]
  · rw [stateAt_of_ok _ _ calcTopUp_eval 1]
    rfl
  · rw [stateAt_of_ok _ _ calcTopUp_eval 1]
    norm_num [List.get?, pctSum, postTopUp]

/-- C2: the claim — a priced round with neither valuation makes
`processRound` fail with a descriptive error and return no partial state
— fails on the code.  The source dereferences the absent post-money
valuation and proceeds: the round takes the NaN path (no exception), and
`calculateCapTable` returns without error as well. -/
theorem c2_missing_valuations_do_not_error :
    processRound stateSingle roundNoVal = RoundOutcome.nan ∧
    capIsNan (calculateCapTable scenarioNoVal) = true ∧
    capIsError (calculateCapTable scenarioNoVal) = false := by
  refine ⟨procNoVal_eval, ?_, ?_⟩ <;> (rw [calcNoVal_eval]; rfl)

/-- C3: the claim — `processRound` leaves the previous state unchanged,
so earlier snapshots returned by `calculateCapTable` are not modified by
later events — fails on the code.  For a 90% founder with a 10% founding
pool and one plain priced round, the initial snapshot in the returned
sequence carries pool percentage 8 (the post-round value, written
through the esop object shared by the shallow copy), although
`createInitialState` built it with pool percentage 10. -/
theorem c3_previous_snapshot_mutated :
    (stateAt scenarioEsop 0).map (fun s => s.esop.percentage) = some 8 ∧
    initialEsopPct scenarioEsop = some 10 := by
  constructor
  · rw [stateAt_of_ok _ _ calcEsop_eval 0]
    rfl
  · unfold initialEsopPct
    rw [initNinetyTen_eval]
    rfl

/-- C4: the claim — founders 90/10 with a priced round of 2,000,000 at
8,000,000 pre-money and a pre-money top-up to 15% yield a post-round
pool percentage within 0.1 of 15 — fails on the code: the pool lands at
exactly 12 (1,500,000 pool shares over 12,500,000 total).  The second
half of the claim does hold: both founders drop strictly below their
pre-round 90 and 10. -/
theorem c4_topup_pool_percentage_is_12 :
    (stateAt scenarioTopUp 1).map (fun s => s.esop.percentage) = some 12 ∧
    ¬ |(12 : ℚ) - 15| ≤ 1/10 ∧
    (stateAt scenarioTopUp 1).map founderPercentages
      = some [7826087/125000, 173913/25000] ∧
    (7826087 : ℚ)/125000 < 90 ∧ (173913 : ℚ)/25000 < 10 := by
  have habs : |(12 : ℚ) - 15| = 3 := by
    rw [abs_of_neg (show (12 : ℚ) - 15 < 0 by norm_num)]
    norm_num
  refine ⟨?_, by rw [habs]; norm_num, ?_, by norm_num, by norm_num⟩
  · rw [stateAt_of_ok _ _ calcTopUp_eval 1]
    rfl
  · rw [stateAt_of_ok _ _ calcTopUp_eval 1]
    rfl

/-- C5: for every priced round over a previous state, when a (truthy)
pre-money valuation P is present `processRound` computes
sharePrice = P / totalShares, newShares = capitalRaised / sharePrice and
postMoney = P + capitalRaised; when only a post-money valuation Q is
present it computes preMoney = Q − capitalRaised and then the same
formulas.  In particular, a single founder at 100% with one priced round
of 1,000,000 at 4,000,000 pre-money ends at 12,500,000 total shares with
founder percentage 80 and investor percentage 20. -/
theorem c5_priced_round_pricing (pre : CapTableState) (round : FundingRound) (t : PricedTerms)
    (hty : round.type = RoundType.PRICED) (ht : round.pricedTerms = some t) :
    (∀ p, t.preMoneyValuation = some p → p ≠ 0 →
      roundMetrics (processRound pre round)
        = some (p / pre.totalShares, round.capitalRaised / (p / pre.totalShares), p,
            p + round.capitalRaised)) ∧
    (t.preMoneyValuation = none → ∀ q, t.postMoneyValuation = some q →
      roundMetrics (processRound pre round)
        = some ((q - round.capitalRaised) / pre.totalShares,
            round.capitalRaised / ((q - round.capitalRaised) / pre.totalShares),
            q - round.capitalRaised, q)) ∧
    (stateAt scenarioSingle 1).map CapTableState.totalShares = some 12500000 ∧
    (stateAt scenarioSingle 1).map founderPercentages = some [80] ∧
    (stateAt scenarioSingle 1).map investorPercentages = some [20] := by
  refine ⟨?_, ?_, ?_, ?_, ?_⟩
  · intro p hp hp0
    simp only [processRound, hty, ht, Option.getD, truthy, hp]
    rw [if_pos (by simpa [bne_iff_ne] using hp0)]
    rfl
  · intro hpre q hq
    simp only [processRound, hty, ht, Option.getD, truthy, hpre, hq]
    rfl
  · rw [stateAt_of_ok _ _ calcSingle_eval 1]
    rfl
  · rw [stateAt_of_ok _ _ calcSingle_eval 1]
    rfl
  · rw [stateAt_of_ok _ _ calcSingle_eval 1]
    rfl

/-- C5 witness: the pre-money formulas evaluated at the single-founder
state and the 1,000,000-at-4,000,000 round give share price 2/5,
2,500,000 new shares, pre-money 4,000,000 and post-money 5,000,000. -/
theorem c5_priced_round_pricing_witness :
    roundMetrics (processRound stateSingle roundPre4M)
      = some (2/5, 2500000, 4000000, 5000000) := by
  have h := (c5_priced_round_pricing stateSingle roundPre4M
    { preMoneyValuation := some 4000000, postMoneyValuation := none } rfl rfl).1
    4000000 rfl (by norm_num)
  norm_num [stateSingle, roundPre4M] at h
  exact h

/-- C6: for every convertible round with a (truthy) valuation cap V over
a previous state, `processRound` uses sharePrice = V / totalShares; when
a discount d is also present it uses
min (V / totalShares) (V / totalShares × (1 − d/100)); and
newShares = capitalRaised / sharePrice.  In particular, a single founder
at 100% with a SAFE of 250,000 at a 10,000,000 cap and 20% discount gets
the discount price 4/5 per share and ends at 10,312,500 total shares. -/
theorem c6_safe_pricing (pre : CapTableState) (round : FundingRound) (st : SafeTerms)
    (v : ℚ) (hty : round.type = RoundType.SAFE) (hst : round.safeTerms = some st)
    (hv : st.valuationCap = some v) (hv0 : v ≠ 0) :
    (st.discount = none →
      sharePriceOf (processRound pre round) = some (v / pre.totalShares) ∧
      newSharesOf (processRound pre round)
        = some (round.capitalRaised / (v / pre.totalShares))) ∧
    (∀ d, st.discount = some d →
      sharePriceOf (processRound pre round)
        = some (min (v / pre.totalShares) (v / pre.totalShares * (1 - d / 100))) ∧
      newSharesOf (processRound pre round)
        = some (round.capitalRaised
            / min (v / pre.totalShares) (v / pre.totalShares * (1 - d / 100)))) ∧
    sharePriceOf (processRound stateSingle roundSafe) = some (4/5) ∧
    (stateAt scenarioSafe 1).map CapTableState.totalShares = some 10312500 := by
  refine ⟨?_, ?_, ?_, ?_⟩
  · intro hd
    simp only [processRound, hty, hst, Option.getD, truthy, hv, hd]
    rw [if_pos (by simpa [bne_iff_ne] using hv0)]
    exact ⟨rfl, rfl⟩
  · intro d hd
    by_cases hd0 : d = 0
    · subst hd0
      simp only [processRound, hty, hst, Option.getD, truthy, hv, hd]
      rw [if_pos (by simpa [bne_iff_ne] using hv0)]
      norm_num
      exact ⟨rfl, rfl⟩
    · simp only [processRound, hty, hst, Option.getD, truthy, hv, hd]
      rw [if_pos (by simpa [bne_iff_ne] using hv0),
        if_pos (by simpa [bne_iff_ne] using hd0)]
      exact ⟨rfl, rfl⟩
  · rw [procSafe_eval]
    norm_num [sharePriceOf]
  · rw [stateAt_of_ok _ _ calcSafe_eval 1]
    rfl

/-- C6 witness: the discounted SAFE formulas evaluated at the
single-founder state and the 250,000-at-10,000,000-cap round with 20%
discount give share price 4/5 and 312,500 new shares. -/
theorem c6_safe_pricing_witness :
    sharePriceOf (processRound stateSingle roundSafe) = some (4/5) ∧
    newSharesOf (processRound stateSingle roundSafe) = some 312500 := by
  have h := (c6_safe_pricing stateSingle roundSafe
    { valuationCap := some 10000000, discount := some 20 } 10000000 rfl rfl rfl
    (by norm_num)).2.1 20 rfl
  norm_num [stateSingle, roundSafe, min_def] at h
  exact h

/-- C7: for every final state whose percentages sum to 100 within the
engine's 0.01 tolerance and every exit valuation V ≥ 0, `simulateExit`
gives each founder and investor a cash return of exactly
percentage/100 × V, each investor a multiple of cashReturn divided by
the capital invested, and an esop value of pool-percentage/100 × V; and
the sum of all cash returns plus the esop value is within
(0.01/100) × V of V (exactly V when the percentages sum to exactly
100). -/
theorem c7_exit_returns (s : CapTableState) (V : ℚ) (hV : 0 ≤ V)
    (hsum : |pctSum s - 100| ≤ 1/100) :
    List.Forall₂ (fun (f : FounderState) (r : FounderReturn) =>
        r.cashReturn = f.percentage / 100 * V)
      s.founders (simulateExit s V).founderReturns ∧
    List.Forall₂ (fun (inv : InvestorState) (r : InvestorReturn) =>
        r.cashReturn = inv.percentage / 100 * V ∧
        r.multiple = r.cashReturn / inv.investmentAmount)
      s.investors (simulateExit s V).investorReturns ∧
    (simulateExit s V).esopValue = s.esop.percentage / 100 * V ∧
    |returnSum (simulateExit s V) - V| ≤ 1/100 / 100 * V := by
  have hkey : returnSum (simulateExit s V) = pctSum s / 100 * V := by
    simp only [returnSum, simulateExit, pctSum, List.map_map]
    have h1 : ((fun r => FounderReturn.cashReturn r) ∘ fun (f : FounderState) =>
        ({ founderId := f.id, name := f.name, finalEquity := f.percentage,
           cashReturn := f.percentage / 100 * V } : FounderReturn))
        = fun (f : FounderState) => f.percentage / 100 * V := rfl
    have h2 : ((fun r => InvestorReturn.cashReturn r) ∘ fun (inv : InvestorState) =>
        ({ investorId := inv.id, name := inv.name, finalEquity := inv.percentage,
           cashReturn := inv.percentage / 100 * V,
           multiple := inv.percentage / 100 * V / inv.investmentAmount } : InvestorReturn))
        = fun (inv : InvestorState) => inv.percentage / 100 * V := rfl
    rw [h1, h2]
    rw [sum_map_div_mul s.founders FounderState.percentage V,
      sum_map_div_mul s.investors InvestorState.percentage V]
    ring
  refine ⟨?_, ?_, rfl, ?_⟩
  · simp only [simulateExit, List.forall₂_map_right_iff]
    exact List.forall₂_same.mpr fun f _ => rfl
  · simp only [simulateExit, List.forall₂_map_right_iff]
    exact List.forall₂_same.mpr fun inv _ => ⟨rfl, rfl⟩
  · rw [hkey]
    have hexp : pctSum s / 100 * V - V = (pctSum s - 100) * (V / 100) := by ring
    rw [hexp, abs_mul, abs_of_nonneg (show (0 : ℚ) ≤ V / 100 by positivity)]
    calc |pctSum s - 100| * (V / 100) ≤ 1/100 * (V / 100) :=
          mul_le_mul_of_nonneg_right hsum (by positivity)
      _ = 1/100 / 100 * V := by ring

/-- C7 witness: for the 90%-founder-plus-10%-pool state and an exit at
1,000,000, the total distributed cash is within the rounding bound of
the exit valuation. -/
theorem c7_exit_returns_witness :
    |returnSum (simulateExit stateNinetyTen 1000000) - 1000000|
      ≤ 1/100 / 100 * 1000000 :=
  (c7_exit_returns stateNinetyTen 1000000 (by norm_num)
    (by norm_num [pctSum, stateNinetyTen])).2.2.2

/-- C8: every convertible round whose terms carry no valuation cap makes
`processRound` fail with the error "SAFE without cap requires conversion
round details" and produce no next state, regardless of any discount. -/
theorem c8_safe_without_cap_errors (pre : CapTableState) (round : FundingRound)
    (st : SafeTerms) (hty : round.type = RoundType.SAFE) (hst : round.safeTerms = some st)
    (hcap : st.valuationCap = none) :
    processRound pre round
      = RoundOutcome.error "SAFE without cap requires conversion round details" := by
  simp [processRound, hty, hst, Option.getD, truthy, hcap]

/-- C8 witness: the capless SAFE round (which does carry a 20% discount)
errors at the single-founder state. -/
theorem c8_safe_without_cap_errors_witness :
    processRound stateSingle roundSafeNoCap
      = RoundOutcome.error "SAFE without cap requires conversion round details" :=
  c8_safe_without_cap_errors stateSingle roundSafeNoCap
    { valuationCap := none, discount := some 20 } rfl rfl rfl

/-- C9: `validateScenario` is total and returns its diagnostics as data:
"At least one founder is required" is present exactly when the founder
list is absent or empty; "Total equity must sum to 100%" is present
exactly when the founder field is present and the founder equities plus
pool percentages differ from 100 by more than 0.01; and the result is
empty exactly when neither condition holds. -/
theorem c9_validate_scenario (founders : Option (List FounderInput))
    (esopPools : Option (List ESOPPoolInput)) :
    ("At least one founder is required" ∈ validateScenario founders esopPools
      ↔ founders = none ∨ founders = some []) ∧
    ("Total equity must sum to 100%" ∈ validateScenario founders esopPools
      ↔ ∃ fs, founders = some fs ∧
          1/100 < |(fs.map FounderInput.initialEquity).sum
            + ((esopPools.getD []).map ESOPPoolInput.percentage).sum - 100|) ∧
    (validateScenario founders esopPools = []
      ↔ ¬(founders = none ∨ founders = some []) ∧
        ¬∃ fs, founders = some fs ∧
          1/100 < |(fs.map FounderInput.initialEquity).sum
            + ((esopPools.getD []).map ESOPPoolInput.percentage).sum - 100|) := by
  match founders with
  | none =>
    simp [validateScenario]
  | some fs =>
    match fs with
    | [] =>
      by_cases h : (100 : ℚ)⁻¹ < |((esopPools.getD []).map ESOPPoolInput.percentage).sum - 100|
      · simp [validateScenario, h]
      · simp [validateScenario, h]
    | f :: t =>
      by_cases h : (100 : ℚ)⁻¹ < |(FounderInput.initialEquity f
            + ((t.map FounderInput.initialEquity).sum
              + ((esopPools.getD []).map ESOPPoolInput.percentage).sum)) - 100|
      · simp [validateScenario, h]
      · simp [validateScenario, h]

/-- C10: valuation presence is decided by numeric truthiness.  A priced
round whose pre-money valuation is the number 0 is priced exactly as if
the pre-money valuation were absent (falling through to the post-money
branch), and a convertible round whose valuation cap is the number 0
fails with the no-cap error just as if the cap were absent. -/
theorem c10_zero_valuations_are_absent (pre : CapTableState) (round : FundingRound) :
    (∀ t, round.type = RoundType.PRICED → round.pricedTerms = some t →
      t.preMoneyValuation = some 0 →
      processRound pre round
        = processRound pre
            { round with pricedTerms := some { t with preMoneyValuation := none } }) ∧
    (∀ st, round.type = RoundType.SAFE → round.safeTerms = some st →
      st.valuationCap = some 0 →
      processRound pre round
        = RoundOutcome.error "SAFE without cap requires conversion round details") := by
  constructor
  · intro t hty ht hpre
    obtain ⟨rid, rname, rty, rcap, rpt, rst, radj⟩ := round
    obtain ⟨tpre, tpost⟩ := t
    simp only at hty ht hpre
    subst hty ht hpre
    simp only [processRound, truthy, Option.getD]
    norm_num
    cases tpost <;> rfl
  · intro st hty hst hcap
    simp [processRound, hty, hst, hcap, truthy]

/-- C10 witness: a priced round with pre-money 0 and post-money
5,000,000 computes identically to the same round with the pre-money
field removed, and a SAFE with cap 0 errors. -/
theorem c10_zero_valuations_are_absent_witness :
    processRound stateSingle roundPreZero
      = processRound stateSingle
          { roundPreZero with
            pricedTerms := some { preMoneyValuation := none
                                  postMoneyValuation := some 5000000 } } ∧
    processRound stateSingle roundSafeCapZero
      = RoundOutcome.error "SAFE without cap requires conversion round details" :=
  ⟨(c10_zero_valuations_are_absent stateSingle roundPreZero).1
      { preMoneyValuation := some 0, postMoneyValuation := some 5000000 } rfl rfl rfl,
    (c10_zero_valuations_are_absent stateSingle roundSafeCapZero).2
      { valuationCap := some 0, discount := none } rfl rfl rfl⟩
